import Mathlib

/-!
Shallow embedding of the core of `src/server.js` (an Express + MySQL
inventory backend) and proofs about its operations.

The relational state is modelled as Lean lists: the `categories` table as a
list of names, the `inventory` table as a list of `InventoryItem` records,
the `users` table as a list of `User` records.  Each Express route handler
becomes a pure function from the request data and the current state to a
response value and the next state.  Query failures that the handlers branch
on are modelled as explicit `Option`/`Bool` parameters, so that the error
paths of the JavaScript callbacks are visible in the embedding.
-/

/-- A row of the `inventory` table (server.js lines 61-78).  Optional
columns are `Option String` (NULL-able VARCHARs); `no`, `id`, `created_by`
are integers. -/
structure InventoryItem where
  id : Nat
  no : Nat
  kategori : String
  code_barang : Option String
  nama : String
  serial_number : Option String
  tanggal : Option String
  lokasi : Option String
  asal_barang : Option String
  status : Option String
  ukuran : Option String
  keterangan : Option String
  created_by : Nat
deriving Repr, DecidableEq

/-- A row of the `users` table (server.js lines 45-51).  `password` holds
the bcrypt hash. -/
structure User where
  id : Nat
  username : String
  email : String
  password : String
deriving Repr, DecidableEq

/-- The persistent state the category and inventory routes operate on. -/
structure DB where
  categories : List String
  inventory : List InventoryItem
deriving Repr, DecidableEq

def emptyDB : DB := { categories := [], inventory := [] }

/-- The request body of `POST /api/inventory` (server.js line 284). -/
structure NewItemFields where
  kategori : String
  codeBarang : Option String
  nama : String
  serialNumber : Option String
  tanggal : Option String
  lokasi : Option String
  asalBarang : Option String
  status : Option String
  ukuran : Option String
  keterangan : Option String
deriving Repr, DecidableEq

/-- The INSERT of server.js lines 294-297: builds the stored row from the
request fields, the computed `no`, the authenticated user id and the
auto-increment id. -/
def mkItem (f : NewItemFields) (no : Nat) (userId : Nat) (newId : Nat) :
    InventoryItem :=
  { id := newId
    no := no
    kategori := f.kategori
    code_barang := f.codeBarang
    nama := f.nama
    serial_number := f.serialNumber
    tanggal := f.tanggal
    lokasi := f.lokasi
    asal_barang := f.asalBarang
    status := f.status
    ukuran := f.ukuran
    keterangan := f.keterangan
    created_by := userId }

/-- `SELECT MAX(no) as maxNo FROM inventory` (server.js line 291): NULL on
an empty table, otherwise the maximum `no` value. -/
def maxNo : List InventoryItem → Option Nat
  | [] => none
  | it :: rest =>
    match maxNo rest with
    | none => some it.no
    | some m => some (max it.no m)

/-- `(result[0]?.maxNo || 0)` (server.js line 292) applied to the row list
returned by the MAX query: 0 if there is no row or the row's `maxNo` is
NULL (or 0), else the value. -/
def rowsMaxNo (rows : List (Option Nat)) : Nat :=
  match rows.head? with
  | none => 0
  | some none => 0
  | some (some m) => m

/-- Responses of `POST /api/inventory` (server.js lines 283-306).
`crash` is the unhandled TypeError thrown at line 292 when the MAX query
failed and `result` is `undefined`. -/
inductive AddOutcome where
  | badRequest
  | insertError (msg : String)
  | ok (id : Nat) (no : Nat)
  | crash
deriving Repr, DecidableEq

/-- The `POST /api/inventory` handler (server.js lines 283-306).
`maxErr`/`maxResult` are the `(err, result)` pair of the MAX-query
callback: `maxErr` is bound but never inspected, exactly as in the source;
`maxResult = none` models `result === undefined` after a failed query, in
which case `result[0]` throws.  `insertErr` is the error argument of the
INSERT callback. -/
def addInventory (st : DB) (f : NewItemFields) (userId newId : Nat)
    (maxErr : Option String) (maxResult : Option (List (Option Nat)))
    (insertErr : Option String) : AddOutcome × DB :=
  if f.nama = "" ∨ f.kategori = "" then (.badRequest, st)
  else
    match maxResult with
    | none => (.crash, st)
    | some rows =>
      let no := rowsMaxNo rows + 1
      match insertErr with
      | some msg => (.insertError msg, st)
      | none =>
        (.ok newId no, { st with inventory := st.inventory ++ [mkItem f no userId newId] })

/-- `addInventory` when both queries succeed and the MAX query returns the
honest aggregate of the current table. -/
def addInventoryOk (st : DB) (f : NewItemFields) (userId newId : Nat) :
    AddOutcome × DB :=
  addInventory st f userId newId none (some [maxNo st.inventory]) none

/-- JavaScript's `String.prototype.trim`: strips leading and trailing
whitespace. -/
def jsTrim (s : String) : String :=
  ⟨((s.data.dropWhile Char.isWhitespace).reverse.dropWhile
      Char.isWhitespace).reverse⟩

/-- Responses of `PUT /api/categories/:oldName` (server.js lines 199-231). -/
inductive RenameOutcome where
  | badRequest
  | errorUpdatingCategory (msg : String)
  | errorUpdatingItems
  | ok
deriving Repr, DecidableEq

/-- The deterministic failure of `UPDATE categories SET name = new WHERE
name = old`: MySQL raises a duplicate-key error on the UNIQUE `name`
column exactly when a row named `old` would be renamed onto an existing
distinct row named `new`. -/
def catUpdateConflicts (cats : List String) (oldName newName : String) : Bool :=
  decide (oldName ∈ cats) && decide (newName ∈ cats) && decide (oldName ≠ newName)

/-- The `PUT /api/categories/:oldName` handler (server.js lines 199-231):
validates the trimmed new name, runs `UPDATE categories SET name = ? WHERE
name = ?`, and only then runs `UPDATE inventory SET kategori = ? WHERE
kategori = ?` — with no transaction around the pair.  `itemsUpdateFails`
injects a store error into the second UPDATE's callback. -/
def renameCategory (st : DB) (oldName newNameRaw : String)
    (itemsUpdateFails : Bool) : RenameOutcome × DB :=
  if jsTrim newNameRaw = "" then (.badRequest, st)
  else
    let newName := jsTrim newNameRaw
    if catUpdateConflicts st.categories oldName newName then
      (.errorUpdatingCategory "ER_DUP_ENTRY", st)
    else
      let cats := st.categories.map (fun c => if c = oldName then newName else c)
      if itemsUpdateFails then
        (.errorUpdatingItems, { st with categories := cats })
      else
        (.ok, { categories := cats
                inventory := st.inventory.map (fun it =>
                  if it.kategori = oldName then { it with kategori := newName } else it) })

/-- Responses of `DELETE /api/categories/:name` (server.js lines 234-247). -/
inductive DeleteOutcome where
  | errorDeleting
  | ok
deriving Repr, DecidableEq

/-- The `DELETE /api/categories/:name` handler (server.js lines 234-247):
a single `DELETE FROM categories WHERE name = ?`; the inventory table is
not touched. -/
def deleteCategory (st : DB) (name : String) : DeleteOutcome × DB :=
  (.ok, { st with categories := st.categories.filter (fun c => c ≠ name) })

/-- The descriptive fields set by `PUT /api/inventory/:id`
(server.js lines 313-317). -/
structure ItemUpdate where
  kategori : String
  codeBarang : Option String
  nama : String
  serialNumber : Option String
  tanggal : Option String
  lokasi : Option String
  asalBarang : Option String
  status : Option String
  ukuran : Option String
  keterangan : Option String
deriving Repr, DecidableEq

/-- The SET clause of the item UPDATE: replaces every descriptive column,
keeping `id`, `no` and `created_by`. -/
def applyUpdate (f : ItemUpdate) (it : InventoryItem) : InventoryItem :=
  { it with
    kategori := f.kategori
    code_barang := f.codeBarang
    nama := f.nama
    serial_number := f.serialNumber
    tanggal := f.tanggal
    lokasi := f.lokasi
    asal_barang := f.asalBarang
    status := f.status
    ukuran := f.ukuran
    keterangan := f.keterangan }

/-- Responses of `PUT /api/inventory/:id` (server.js lines 309-325): the
handler only distinguishes a store error from success; it never inspects
the number of affected rows. -/
inductive UpdateOutcome where
  | errorUpdating (msg : String)
  | ok
deriving Repr, DecidableEq

/-- The `PUT /api/inventory/:id` handler (server.js lines 309-325): one
`UPDATE inventory SET ... WHERE id = ?` followed by `res.json('Item
updated')` whenever the query itself did not error. -/
def updateInventory (st : DB) (id : Nat) (f : ItemUpdate) :
    UpdateOutcome × DB :=
  (.ok, { st with inventory := st.inventory.map (fun it =>
    if it.id = id then applyUpdate f it else it) })

/-- Insertion by ascending `no`, used to model `ORDER BY no`. -/
def insertByNo (it : InventoryItem) : List InventoryItem → List InventoryItem
  | [] => [it]
  | x :: xs => if it.no ≤ x.no then it :: x :: xs else x :: insertByNo it xs

/-- The `GET /api/inventory` handler's row set (server.js lines 252-280):
all inventory rows, ordered by `no` ascending. -/
def listInventory (st : DB) : List InventoryItem :=
  st.inventory.foldr insertByNo []

/-- `GROUP BY` on a column: one `(value, COUNT(*))` row per distinct
stored value. -/
def groupByCounts {α : Type} [DecidableEq α] (xs : List α) : List (α × Nat) :=
  xs.dedup.map (fun v => (v, xs.count v))

/-- The property key `acc[item.status]` uses for a row value: SQL NULL
becomes the JavaScript object key "null"; a string is its own key. -/
def statusKey : Option String → String
  | none => "null"
  | some s => s

/-- One step of the `reduce` at server.js lines 364-371: `acc[k] = c`.
Per ECMA-262 (B.2.2.1), assigning to the key "__proto__" on a plain
object invokes the inherited `Object.prototype.__proto__` setter, which
for a non-object value such as a count is a no-op creating no own
property — the row is silently dropped.  Any other key is overwritten if
present and added otherwise. -/
def setKey (acc : List (String × Nat)) (k : String) (c : Nat) :
    List (String × Nat) :=
  if k = "__proto__" then acc
  else if acc.any (fun p => p.1 = k) then
    acc.map (fun p => if p.1 = k then (k, c) else p)
  else acc ++ [(k, c)]

/-- The whole `reduce((acc, item) => { acc[key] = count; ... }, {})`:
folds the grouped rows into a string-keyed object. -/
def objFromGroups (groups : List (String × Nat)) : List (String × Nat) :=
  groups.foldl (fun acc p => setKey acc p.1 p.2) []

/-- The body of a successful `GET /api/stats` response
(server.js lines 340-378). -/
structure Stats where
  total : Nat
  byStatus : List (String × Nat)
  byCategory : List (String × Nat)
deriving Repr, DecidableEq

/-- The `GET /api/stats` handler (server.js lines 340-378) on a quiescent
state: `COUNT(*)`, then `GROUP BY status`, then `GROUP BY kategori`, each
group list reduced into a JavaScript object. -/
def computeStats (st : DB) : Stats :=
  { total := st.inventory.length
    byStatus := objFromGroups
      ((groupByCounts (st.inventory.map (fun it => it.status))).map
        (fun p => (statusKey p.1, p.2)))
    byCategory := objFromGroups
      (groupByCounts (st.inventory.map (fun it => it.kategori))) }

/-- Sum of the numeric values of a JavaScript object modelled as a
key-value list. -/
def sumVals (obj : List (String × Nat)) : Nat :=
  (obj.map (fun p => p.2)).sum

/-- The claims `jwt.sign` embeds into the session token
(server.js lines 150-154). -/
structure TokenPayload where
  id : Nat
  username : String
  email : String
deriving Repr, DecidableEq

/-- The public user fields returned next to the token
(server.js line 159). -/
structure PublicUser where
  id : Nat
  username : String
  email : String
deriving Repr, DecidableEq

/-- Responses of `POST /api/auth/login` (server.js lines 129-163): every
failure is a 400 with a message and no token; success carries the token
payload and the public user fields — the response never includes the
stored password hash. -/
inductive LoginOutcome where
  | badRequest (msg : String)
  | ok (token : TokenPayload) (user : PublicUser)
deriving Repr, DecidableEq

/-- The `POST /api/auth/login` handler (server.js lines 129-163):
`SELECT * FROM users WHERE username = ?`, take the first row, compare the
password with `bcrypt.compareSync` (modelled by the oracle `compareSync`),
and on success sign a token embedding the stored id, username and email. -/
def login (users : List User) (username password : String)
    (compareSync : String → String → Bool) : LoginOutcome :=
  if username = "" ∨ password = "" then
    .badRequest "Username and password required"
  else
    match users.find? (fun u => u.username = username) with
    | none => .badRequest "User not found"
    | some user =>
      if compareSync password user.password then
        .ok { id := user.id, username := user.username, email := user.email }
          { id := user.id, username := user.username, email := user.email }
      else .badRequest "Invalid password"

/-- Where a concurrent `POST /api/inventory` request stands in the
callback chain of server.js lines 291-305: before its MAX query, holding
the value its MAX query returned, or finished after its INSERT. -/
inductive TaskPhase where
  | start
  | readDone (maxRead : Option Nat)
  | finished (no : Nat)
deriving Repr, DecidableEq

/-- One in-flight add-item request (validation already passed). -/
structure AddTask where
  fields : NewItemFields
  userId : Nat
  newId : Nat
  phase : TaskPhase
deriving Repr, DecidableEq

/-- Runs the next pending query of one request against the shared table:
the MAX read records `maxNo` of the table as it stands; the INSERT then
uses the recorded value, exactly as the handler computes
`(result[0]?.maxNo || 0) + 1`. -/
def stepAdd (inv : List InventoryItem) (t : AddTask) :
    List InventoryItem × AddTask :=
  match t.phase with
  | .start => (inv, { t with phase := .readDone (maxNo inv) })
  | .readDone m =>
    let no := m.getD 0 + 1
    (inv ++ [mkItem t.fields no t.userId t.newId],
     { t with phase := .finished no })
  | .finished _ => (inv, t)

/-- Two concurrent add-item requests over the shared inventory table. -/
structure ConcState where
  inv : List InventoryItem
  t1 : AddTask
  t2 : AddTask
deriving Repr, DecidableEq

/-- The pool schedules one pending query of the chosen request. -/
def stepConc (s : ConcState) (pickFirst : Bool) : ConcState :=
  if pickFirst then
    let p := stepAdd s.inv s.t1
    { s with inv := p.1, t1 := p.2 }
  else
    let p := stepAdd s.inv s.t2
    { s with inv := p.1, t2 := p.2 }

/-- Runs an interleaving of the two requests' queries. -/
def runConc (s : ConcState) : List Bool → ConcState
  | [] => s
  | p :: ps => runConc (stepConc s p) ps

-- Basic facts about `maxNo`.

theorem maxNo_eq_none_iff (l : List InventoryItem) :
    maxNo l = none ↔ l = [] := by
  cases l with
  | nil => simp [maxNo]
  | cons it rest =>
    simp only [maxNo]
    cases maxNo rest <;> simp

theorem maxNo_is_ub (l : List InventoryItem) (m : Nat) (h : maxNo l = some m) :
    ∀ it ∈ l, it.no ≤ m := by
  induction l generalizing m with
  | nil => simp [maxNo] at h
  | cons x rest ih =>
    intro it hit
    cases hrest : maxNo rest with
    | none =>
      simp only [maxNo, hrest, Option.some.injEq] at h
      rcases List.mem_cons.mp hit with rfl | hmem
      · omega
      · rw [maxNo_eq_none_iff] at hrest
        subst hrest; simp at hmem
    | some k =>
      simp only [maxNo, hrest, Option.some.injEq] at h
      rcases List.mem_cons.mp hit with rfl | hmem
      · omega
      · have := ih k hrest it hmem
        omega

theorem maxNo_attained (l : List InventoryItem) (m : Nat)
    (h : maxNo l = some m) : ∃ it ∈ l, it.no = m := by
  induction l generalizing m with
  | nil => simp [maxNo] at h
  | cons x rest ih =>
    cases hrest : maxNo rest with
    | none =>
      simp only [maxNo, hrest, Option.some.injEq] at h
      exact ⟨x, List.mem_cons_self x rest, h⟩
    | some k =>
      simp only [maxNo, hrest, Option.some.injEq] at h
      rcases Nat.le_total x.no k with hle | hle
      · obtain ⟨it, hmem, hno⟩ := ih k hrest
        refine ⟨it, List.mem_cons_of_mem x hmem, ?_⟩
        rw [Nat.max_eq_right hle] at h
        omega
      · refine ⟨x, List.mem_cons_self x rest, ?_⟩
        rw [Nat.max_eq_left hle] at h
        omega

/-- On a successful add (both queries succeed, honest MAX result), the
handler returns `max + 1` and appends the row. -/
theorem addInventoryOk_success (st : DB) (f : NewItemFields)
    (userId newId : Nat) (hn : f.nama ≠ "") (hk : f.kategori ≠ "") :
    addInventoryOk st f userId newId =
      (AddOutcome.ok newId ((maxNo st.inventory).getD 0 + 1),
       { st with inventory :=
          st.inventory ++ [mkItem f ((maxNo st.inventory).getD 0 + 1) userId newId] }) := by
  have hcond : ¬ (f.nama = "" ∨ f.kategori = "") := by
    rintro (h | h)
    · exact hn h
    · exact hk h
  unfold addInventoryOk addInventory
  rw [if_neg hcond]
  cases hmax : maxNo st.inventory <;> rfl

theorem insertByNo_length (it : InventoryItem) (l : List InventoryItem) :
    (insertByNo it l).length = l.length + 1 := by
  induction l with
  | nil => rfl
  | cons x xs ih =>
    unfold insertByNo
    by_cases h : it.no ≤ x.no
    · rw [if_pos h]; rfl
    · rw [if_neg h]; simp [ih]

theorem listInventory_length (st : DB) :
    (listInventory st).length = st.inventory.length := by
  unfold listInventory
  induction st.inventory with
  | nil => rfl
  | cons x xs ih => simp [List.foldr, insertByNo_length, ih]

/-- When the keys are pairwise distinct and none of them is the special
key "__proto__", the JavaScript-object fold never overwrites and never
drops: it reproduces the group rows. -/
theorem foldl_setKey_nodup (groups acc : List (String × Nat))
    (h : ((acc ++ groups).map Prod.fst).Nodup)
    (hp : "__proto__" ∉ groups.map Prod.fst) :
    List.foldl (fun a p => setKey a p.1 p.2) acc groups = acc ++ groups := by
  induction groups generalizing acc with
  | nil => simp
  | cons p ps ih =>
    have hpp : p.1 ≠ "__proto__" := by
      intro hk
      exact hp (by simp [hk])
    have hnotin : p.1 ∉ acc.map Prod.fst := by
      intro hmem
      rw [List.map_append, List.nodup_append] at h
      exact h.2.2 hmem (by simp)
    have hset : setKey acc p.1 p.2 = acc ++ [p] := by
      unfold setKey
      rw [if_neg hpp]
      rw [if_neg ?_]
      · intro hany
        rw [List.any_eq_true] at hany
        obtain ⟨q, hq, heq⟩ := hany
        exact hnotin (List.mem_map.mpr ⟨q, hq, of_decide_eq_true heq⟩)
    have h' : (((acc ++ [p]) ++ ps).map Prod.fst).Nodup := by
      simpa using h
    have hp' : "__proto__" ∉ ps.map Prod.fst := by
      intro hmem
      exact hp (by simp [hmem])
    calc List.foldl (fun a p => setKey a p.1 p.2) acc (p :: ps)
        = List.foldl (fun a p => setKey a p.1 p.2) (acc ++ [p]) ps := by
          rw [List.foldl_cons, hset]
      _ = (acc ++ [p]) ++ ps := ih (acc ++ [p]) h' hp'
      _ = acc ++ p :: ps := by simp

theorem objFromGroups_nodup (groups : List (String × Nat))
    (h : (groups.map Prod.fst).Nodup)
    (hp : "__proto__" ∉ groups.map Prod.fst) :
    objFromGroups groups = groups := by
  unfold objFromGroups
  simpa using foldl_setKey_nodup groups [] (by simpa using h) hp

theorem sum_groupByCounts {α : Type} [DecidableEq α] (xs : List α) :
    ((groupByCounts xs).map (fun p => p.2)).sum = xs.length := by
  unfold groupByCounts
  rw [List.map_map]
  simpa [Function.comp] using List.sum_map_count_dedup_eq_length xs

-- Concrete fixtures used by witnesses and counterexamples.

def wItemFields : NewItemFields :=
  { kategori := "Elektronik", codeBarang := none, nama := "Laptop A"
    serialNumber := none, tanggal := none, lokasi := none, asalBarang := none
    status := none, ukuran := none, keterangan := none }

def wFieldsB : NewItemFields := { wItemFields with nama := "Laptop B" }

/-- An item labeled with category "A". -/
def wItemA : InventoryItem := mkItem { wItemFields with kategori := "A" } 1 1 1

/-- C3: on any state, a successful add returns the current maximum `no`
plus one (1 on an empty catalog) and appends exactly that row; an empty
`nama` or `kategori` yields the 400 validation response and leaves the
state untouched. -/
theorem add_item_assigns_next_no (st : DB) (f : NewItemFields)
    (userId newId : Nat) :
    ((f.nama = "" ∨ f.kategori = "") →
      addInventoryOk st f userId newId = (AddOutcome.badRequest, st)) ∧
    (f.nama ≠ "" → f.kategori ≠ "" →
      ∃ no,
        (addInventoryOk st f userId newId).1 = AddOutcome.ok newId no ∧
        (addInventoryOk st f userId newId).2.inventory =
          st.inventory ++ [mkItem f no userId newId] ∧
        (st.inventory = [] → no = 1) ∧
        (∀ it ∈ st.inventory, it.no < no) ∧
        (st.inventory ≠ [] → ∃ it ∈ st.inventory, no = it.no + 1)) := by
  constructor
  · intro h
    unfold addInventoryOk addInventory
    rw [if_pos h]
  · intro hn hk
    rw [addInventoryOk_success st f userId newId hn hk]
    refine ⟨(maxNo st.inventory).getD 0 + 1, rfl, rfl, ?_, ?_, ?_⟩
    · intro hempty
      rw [hempty]
      rfl
    · intro it hit
      cases hmax : maxNo st.inventory with
      | none =>
        rw [(maxNo_eq_none_iff _).mp hmax] at hit
        simp at hit
      | some m =>
        have := maxNo_is_ub _ m hmax it hit
        simp only [Option.getD_some]
        omega
    · intro hne
      cases hmax : maxNo st.inventory with
      | none => exact absurd ((maxNo_eq_none_iff _).mp hmax) hne
      | some m =>
        obtain ⟨it, hmem, hno⟩ := maxNo_attained _ m hmax
        refine ⟨it, hmem, ?_⟩
        simp only [Option.getD_some]
        omega

theorem add_item_assigns_next_no_witness :
    wItemFields.nama ≠ "" ∧ wItemFields.kategori ≠ "" ∧
    (∃ no,
      (addInventoryOk emptyDB wItemFields 1 1).1 = AddOutcome.ok 1 no ∧
      (addInventoryOk emptyDB wItemFields 1 1).2.inventory =
        emptyDB.inventory ++ [mkItem wItemFields no 1 1] ∧
      (emptyDB.inventory = [] → no = 1) ∧
      (∀ it ∈ emptyDB.inventory, it.no < no) ∧
      (emptyDB.inventory ≠ [] → ∃ it ∈ emptyDB.inventory, no = it.no + 1)) :=
  ⟨by decide, by decide,
   (add_item_assigns_next_no emptyDB wItemFields 1 1).2 (by decide) (by decide)⟩

/-- C9: the MAX-query callback of the add-item handler never inspects its
error argument — `addInventory` does not depend on `maxErr` at all — and
when that query fails (result `undefined`) a validation-passing request
crashes with the unhandled TypeError of line 292 instead of producing a
structured 5xx store-error response. -/
theorem add_item_ignores_max_query_error (st : DB) (f : NewItemFields)
    (userId newId : Nat) (e1 e2 : Option String)
    (r : Option (List (Option Nat))) (ie : Option String) :
    addInventory st f userId newId e1 r ie =
      addInventory st f userId newId e2 r ie ∧
    (f.nama ≠ "" → f.kategori ≠ "" →
      (addInventory st f userId newId e1 none ie).1 = AddOutcome.crash) := by
  refine ⟨rfl, ?_⟩
  intro hn hk
  have hcond : ¬ (f.nama = "" ∨ f.kategori = "") := by
    rintro (h | h)
    · exact hn h
    · exact hk h
  unfold addInventory
  rw [if_neg hcond]

theorem add_item_ignores_max_query_error_witness :
    wItemFields.nama ≠ "" ∧ wItemFields.kategori ≠ "" ∧
    (addInventory emptyDB wItemFields 1 1 (some "ECONNRESET") none none).1 =
      AddOutcome.crash :=
  ⟨by decide, by decide,
   (add_item_ignores_max_query_error emptyDB wItemFields 1 1
      (some "ECONNRESET") none none none).2 (by decide) (by decide)⟩

/-- Initial state for two concurrent add-item requests over an empty
catalog: both are about to run their MAX query. -/
def concInit : ConcState :=
  { inv := []
    t1 := { fields := wItemFields, userId := 1, newId := 1, phase := .start }
    t2 := { fields := wFieldsB, userId := 1, newId := 2, phase := .start } }

/-- C1: the add-item handler's read-then-write numbering is not
serialized.  Under the admissible interleaving where both requests run
their `SELECT MAX(no)` before either `INSERT` (schedule read1, read2,
write1, write2), the two items both receive `no = 1` — a duplicate, not
the claimed gap-free set {1, 2}.  Only the fully serialized schedule
produces {1, 2}. -/
theorem concurrent_add_duplicates_no :
    ((runConc concInit [true, false, true, false]).inv.map
      (fun it => it.no)) = [1, 1] ∧
    ((runConc concInit [true, true, false, false]).inv.map
      (fun it => it.no)) = [1, 2] := by
  constructor <;> rfl

/-- State for the rename cascade: category "A" registered, one item
labeled "A". -/
def renameInitDB : DB := { categories := ["A"], inventory := [wItemA] }

/-- C2: the rename cascade has no rollback.  When the second UPDATE (the
item-label propagation) fails, the handler reports the 500
"Error updating items" response but the registry keeps the already
committed new name: the caller-visible state has the registry holding "B"
while the item still carries "A". -/
theorem rename_no_rollback_on_item_failure :
    renameCategory renameInitDB "A" "B" true =
      (RenameOutcome.errorUpdatingItems,
       { categories := ["B"], inventory := [wItemA] }) ∧
    "A" ∉ (renameCategory renameInitDB "A" "B" true).2.categories ∧
    wItemA ∈ (renameCategory renameInitDB "A" "B" true).2.inventory ∧
    wItemA.kategori = "A" := by
  refine ⟨by decide, by decide, by decide, by decide⟩

/-- On a validated, conflict-free rename with a healthy store, the handler
renames the registry rows and relabels the matching items. -/
theorem renameCategory_success (st : DB) (A B : String)
    (htrim : jsTrim B = B) (hBne : B ≠ "")
    (hconf : catUpdateConflicts st.categories A B = false) :
    renameCategory st A B false =
      (RenameOutcome.ok,
       { categories := st.categories.map (fun c => if c = A then B else c)
         inventory := st.inventory.map (fun it =>
           if it.kategori = A then { it with kategori := B } else it) }) := by
  unfold renameCategory
  rw [htrim, if_neg hBne]
  simp only [hconf, Bool.false_eq_true, if_false]

/-- C4: a successful rename of an existing category "A" to a fresh name
"B" reports 200, the registry now contains "B" and no longer contains "A",
every item labeled "A" is relabeled "B", items labeled otherwise are kept
as they are, and no item is left carrying "A". -/
theorem rename_category_cascades (st : DB) (A B : String)
    (hA : A ∈ st.categories) (hB : B ∉ st.categories) (hAB : A ≠ B)
    (htrim : jsTrim B = B) (hBne : B ≠ "") :
    (renameCategory st A B false).1 = RenameOutcome.ok ∧
    B ∈ (renameCategory st A B false).2.categories ∧
    A ∉ (renameCategory st A B false).2.categories ∧
    (∀ it ∈ st.inventory, it.kategori = A →
      { it with kategori := B } ∈ (renameCategory st A B false).2.inventory) ∧
    (∀ it ∈ st.inventory, it.kategori ≠ A →
      it ∈ (renameCategory st A B false).2.inventory) ∧
    (∀ it ∈ (renameCategory st A B false).2.inventory, it.kategori ≠ A) := by
  have hconf : catUpdateConflicts st.categories A B = false := by
    simp [catUpdateConflicts, hB]
  rw [renameCategory_success st A B htrim hBne hconf]
  refine ⟨rfl, ?_, ?_, ?_, ?_, ?_⟩
  · exact List.mem_map.mpr ⟨A, hA, by simp⟩
  · intro hmem
    obtain ⟨c, hc, hceq⟩ := List.mem_map.mp hmem
    by_cases hcA : c = A
    · rw [if_pos hcA] at hceq
      exact hAB hceq.symm
    · rw [if_neg hcA] at hceq
      exact hcA hceq
  · intro it hit hkat
    exact List.mem_map.mpr ⟨it, hit, by rw [if_pos hkat]⟩
  · intro it hit hkat
    exact List.mem_map.mpr ⟨it, hit, by rw [if_neg hkat]⟩
  · intro it hmem
    obtain ⟨x, hx, hxeq⟩ := List.mem_map.mp hmem
    by_cases hxA : x.kategori = A
    · rw [if_pos hxA] at hxeq
      rw [← hxeq]
      simp only []
      exact fun h => hAB h.symm
    · rw [if_neg hxA] at hxeq
      rw [← hxeq]
      exact hxA

def witRenameDB : DB :=
  { categories := ["A", "C"], inventory := [wItemA, mkItem wItemFields 2 1 2] }

theorem rename_category_cascades_witness :
    "A" ∈ witRenameDB.categories ∧ "B" ∉ witRenameDB.categories ∧
    "A" ≠ "B" ∧ jsTrim "B" = "B" ∧ "B" ≠ "" ∧
    ((renameCategory witRenameDB "A" "B" false).1 = RenameOutcome.ok ∧
     "B" ∈ (renameCategory witRenameDB "A" "B" false).2.categories ∧
     "A" ∉ (renameCategory witRenameDB "A" "B" false).2.categories ∧
     (∀ it ∈ witRenameDB.inventory, it.kategori = "A" →
       { it with kategori := "B" } ∈ (renameCategory witRenameDB "A" "B" false).2.inventory) ∧
     (∀ it ∈ witRenameDB.inventory, it.kategori ≠ "A" →
       it ∈ (renameCategory witRenameDB "A" "B" false).2.inventory) ∧
     (∀ it ∈ (renameCategory witRenameDB "A" "B" false).2.inventory, it.kategori ≠ "A")) :=
  ⟨by decide, by decide, by decide, by decide, by decide,
   rename_category_cascades witRenameDB "A" "B" (by decide) (by decide)
     (by decide) (by decide) (by decide)⟩

/-- C10: renaming an old name that is absent from the registry still
reports 200 and still relabels every item carrying that label, while the
registry itself is untouched. -/
theorem rename_absent_category_still_relabels (st : DB) (A B : String)
    (hA : A ∉ st.categories) (htrim : jsTrim B = B) (hBne : B ≠ "") :
    (renameCategory st A B false).1 = RenameOutcome.ok ∧
    (renameCategory st A B false).2.categories = st.categories ∧
    (∀ it ∈ st.inventory, it.kategori = A →
      { it with kategori := B } ∈ (renameCategory st A B false).2.inventory) := by
  have hconf : catUpdateConflicts st.categories A B = false := by
    simp [catUpdateConflicts, hA]
  rw [renameCategory_success st A B htrim hBne hconf]
  refine ⟨rfl, ?_, ?_⟩
  · show st.categories.map (fun c => if c = A then B else c) = st.categories
    have : ∀ c ∈ st.categories, (if c = A then B else c) = c := by
      intro c hc
      rw [if_neg]
      intro hcA
      exact hA (hcA ▸ hc)
    rw [List.map_congr_left this]
    exact List.map_id st.categories
  · intro it hit hkat
    exact List.mem_map.mpr ⟨it, hit, by rw [if_pos hkat]⟩

def witOrphanDB : DB := { categories := ["C"], inventory := [wItemA] }

theorem rename_absent_category_still_relabels_witness :
    "A" ∉ witOrphanDB.categories ∧
    ((renameCategory witOrphanDB "A" "B" false).1 = RenameOutcome.ok ∧
     (renameCategory witOrphanDB "A" "B" false).2.categories = witOrphanDB.categories ∧
     (∀ it ∈ witOrphanDB.inventory, it.kategori = "A" →
       { it with kategori := "B" } ∈ (renameCategory witOrphanDB "A" "B" false).2.inventory)) :=
  ⟨by decide,
   rename_absent_category_still_relabels witOrphanDB "A" "B" (by decide)
     (by decide) (by decide)⟩

/-- C8: deleting a category removes exactly the registry rows with that
name — a remaining name is a previous one different from the deleted one —
and the inventory rows, including items still labeled with the deleted
name, are byte-for-byte unchanged. -/
theorem delete_category_only_registry (st : DB) (A : String) :
    (deleteCategory st A).1 = DeleteOutcome.ok ∧
    (deleteCategory st A).2.inventory = st.inventory ∧
    (∀ c, c ∈ (deleteCategory st A).2.categories ↔ (c ∈ st.categories ∧ c ≠ A)) := by
  refine ⟨rfl, rfl, fun c => ?_⟩
  simp [deleteCategory, List.mem_filter]

def wUpd : ItemUpdate :=
  { kategori := "Furnitur", codeBarang := none, nama := "Meja"
    serialNumber := none, tanggal := none, lokasi := none, asalBarang := none
    status := none, ukuran := none, keterangan := none }

def updDB : DB := { categories := [], inventory := [wItemA] }

/-- C5 counterexample: id 5 is absent from the catalog (the only item has
id 1), yet the update handler answers the success response "Item updated"
— there is no NotFoundError path in the handler at all — while the
catalog is left unchanged. -/
theorem update_missing_id_reports_success :
    (∀ it ∈ updDB.inventory, it.id ≠ 5) ∧
    (updateInventory updDB 5 wUpd).1 = UpdateOutcome.ok ∧
    (updateInventory updDB 5 wUpd).2 = updDB := by
  refine ⟨by decide, by decide, by decide⟩

/-- C5 amended: when the id matches no item, the update handler reports
success (200 "Item updated") — not a NotFoundError — and the catalog
state is unchanged. -/
theorem update_missing_id_no_change (st : DB) (id : Nat) (f : ItemUpdate)
    (h : ∀ it ∈ st.inventory, it.id ≠ id) :
    updateInventory st id f = (UpdateOutcome.ok, st) := by
  unfold updateInventory
  have hmap : st.inventory.map
      (fun it => if it.id = id then applyUpdate f it else it) = st.inventory := by
    have : ∀ it ∈ st.inventory,
        (if it.id = id then applyUpdate f it else it) = it := by
      intro it hit
      rw [if_neg (h it hit)]
    rw [List.map_congr_left this]
    exact List.map_id st.inventory
  rw [hmap]

theorem update_missing_id_no_change_witness :
    (∀ it ∈ updDB.inventory, it.id ≠ 7) ∧
    updateInventory updDB 7 wUpd = (UpdateOutcome.ok, updDB) :=
  ⟨by decide, update_missing_id_no_change updDB 7 wUpd (by decide)⟩

/-- Reachable two-item catalog whose statuses are the SQL NULL and the
literal string "null": built by two successful adds on an empty catalog. -/
def statusNullFields : NewItemFields := { wItemFields with status := some "null" }

def statusNoneFields : NewItemFields := { wFieldsB with status := none }

def collideDB : DB :=
  (addInventoryOk (addInventoryOk emptyDB statusNullFields 1 1).2
    statusNoneFields 1 2).2

/-- Reachable one-item catalog whose kategori is the string "__proto__"
(free text, passes the non-empty validation): built by one successful
add on an empty catalog. -/
def protoFields : NewItemFields := { wItemFields with kategori := "__proto__" }

def protoDB : DB := (addInventoryOk emptyDB protoFields 1 1).2

/-- C6 counterexample: in the reachable state with one NULL-status item
and one item whose status is the string "null", both `GROUP BY status`
rows are written to the same JavaScript object key "null"
(`acc[item.status]` stringifies null), the second assignment overwriting
the first: the byStatus sum is 1 while the total is 2.  Likewise, in the
reachable state with one item of kategori "__proto__", the assignment
`acc["__proto__"] = count` hits the inherited setter and creates no own
property, so the byCategory object stays empty: its sum is 0 while the
total is 1. -/
theorem stats_byStatus_key_collision :
    (computeStats collideDB).total = 2 ∧
    (listInventory collideDB).length = 2 ∧
    sumVals (computeStats collideDB).byStatus = 1 ∧
    (computeStats protoDB).total = 1 ∧
    (listInventory protoDB).length = 1 ∧
    sumVals (computeStats protoDB).byCategory = 0 := by
  refine ⟨by decide, by decide, by decide, by decide, by decide, by decide⟩

theorem groupByCounts_keys {α : Type} [DecidableEq α] (xs : List α) :
    (groupByCounts xs).map Prod.fst = xs.dedup := by
  unfold groupByCounts
  rw [List.map_map]
  exact List.map_id xs.dedup

/-- C6 amended: the stats total always equals the number of rows the item
list returns; the byCategory sum equals the total in every state where no
item's kategori is the string "__proto__" (whose bucket the inherited
setter silently drops — distinct ordinary strings never collide as keys);
the byStatus sum equals the total in every state that neither holds both
a NULL status and the literal string "null" as statuses (whose
`acc[item.status]` object keys collide) nor a status "__proto__" (whose
bucket is dropped) — both failure modes are exhibited by the
counterexample. -/
theorem stats_totals_consistent (st : DB) :
    (computeStats st).total = (listInventory st).length ∧
    ("__proto__" ∉ st.inventory.map (fun it => it.kategori) →
      sumVals (computeStats st).byCategory = (computeStats st).total) ∧
    ((¬ ((none ∈ st.inventory.map (fun it => it.status)) ∧
         ((some "null") ∈ st.inventory.map (fun it => it.status))) ∧
      (some "__proto__") ∉ st.inventory.map (fun it => it.status)) →
      sumVals (computeStats st).byStatus = (computeStats st).total) := by
  refine ⟨?_, ?_, ?_⟩
  · show st.inventory.length = (listInventory st).length
    rw [listInventory_length]
  · intro hcat
    show sumVals (objFromGroups
      (groupByCounts (st.inventory.map (fun it => it.kategori)))) =
      st.inventory.length
    have hnd : ((groupByCounts
        (st.inventory.map (fun it => it.kategori))).map Prod.fst).Nodup := by
      rw [groupByCounts_keys]
      exact List.nodup_dedup _
    have hpr : "__proto__" ∉ (groupByCounts
        (st.inventory.map (fun it => it.kategori))).map Prod.fst := by
      rw [groupByCounts_keys]
      intro hmem
      exact hcat (List.mem_dedup.mp hmem)
    rw [objFromGroups_nodup _ hnd hpr]
    show ((groupByCounts (st.inventory.map (fun it => it.kategori))).map
      (fun p => p.2)).sum = st.inventory.length
    rw [sum_groupByCounts, List.length_map]
  · rintro ⟨hsafe, hproto⟩
    set ss := st.inventory.map (fun it => it.status) with hss
    show sumVals (objFromGroups
      ((groupByCounts ss).map (fun p => (statusKey p.1, p.2)))) =
      st.inventory.length
    have heq : (((groupByCounts ss).map
        (fun p => (statusKey p.1, p.2))).map Prod.fst) =
        ss.dedup.map statusKey := by
      rw [List.map_map, ← groupByCounts_keys ss, List.map_map]
      exact List.map_congr_left (fun p _ => rfl)
    have hkeys : (((groupByCounts ss).map
        (fun p => (statusKey p.1, p.2))).map Prod.fst).Nodup := by
      rw [heq]
      apply List.Nodup.map_on ?inj (List.nodup_dedup ss)
      case inj =>
        intro x hx y hy hxy
        rcases x with _ | a <;> rcases y with _ | b
        · rfl
        · exfalso
          have hb : b = "null" := by
            simpa [statusKey] using hxy.symm
          exact hsafe ⟨List.mem_dedup.mp hx, hb ▸ List.mem_dedup.mp hy⟩
        · exfalso
          have ha : a = "null" := by
            simpa [statusKey] using hxy
          exact hsafe ⟨List.mem_dedup.mp hy, ha ▸ List.mem_dedup.mp hx⟩
        · simpa [statusKey] using hxy
    have hprKeys : "__proto__" ∉ (((groupByCounts ss).map
        (fun p => (statusKey p.1, p.2))).map Prod.fst) := by
      rw [heq]
      intro hmem
      obtain ⟨x, hx, hxk⟩ := List.mem_map.mp hmem
      rcases x with _ | s
      · have : statusKey none = "null" := rfl
        rw [this] at hxk
        exact absurd hxk (by decide)
      · have hs : s = "__proto__" := by
          simpa [statusKey] using hxk
        exact hproto (hs ▸ List.mem_dedup.mp hx)
    rw [objFromGroups_nodup _ hkeys hprKeys]
    have hvals : (((groupByCounts ss).map
        (fun p => (statusKey p.1, p.2))).map (fun p => p.2)) =
        (groupByCounts ss).map (fun p => p.2) := by
      rw [List.map_map]
      exact List.map_congr_left (fun p _ => rfl)
    show (((groupByCounts ss).map (fun p => (statusKey p.1, p.2))).map
      (fun p => p.2)).sum = st.inventory.length
    rw [hvals, sum_groupByCounts, hss, List.length_map]

def okStatsDB : DB :=
  (addInventoryOk emptyDB { wItemFields with status := some "baik" } 1 1).2

theorem stats_totals_consistent_witness :
    ("__proto__" ∉ okStatsDB.inventory.map (fun it => it.kategori)) ∧
    (¬ ((none ∈ okStatsDB.inventory.map (fun it => it.status)) ∧
        ((some "null") ∈ okStatsDB.inventory.map (fun it => it.status))) ∧
     (some "__proto__") ∉ okStatsDB.inventory.map (fun it => it.status)) ∧
    sumVals (computeStats okStatsDB).byCategory = (computeStats okStatsDB).total ∧
    sumVals (computeStats okStatsDB).byStatus = (computeStats okStatsDB).total :=
  ⟨by decide, ⟨by decide, by decide⟩,
   (stats_totals_consistent okStatsDB).2.1 (by decide),
   (stats_totals_consistent okStatsDB).2.2 ⟨by decide, by decide⟩⟩

/-- C7: when a stored user is the row the username lookup finds, a
password passing the hash comparison yields the success response whose
token claims are exactly the stored id, username and email, returned next
to the same public fields (the `LoginOutcome.ok` payloads carry no
password-hash field at all); a password failing the hash comparison
yields the 400 "Invalid password" response, which carries no token. -/
theorem login_embeds_stored_claims (users : List User) (u : User)
    (username password : String) (cmp : String → String → Bool)
    (hfind : users.find? (fun v => v.username = username) = some u)
    (hu : username ≠ "") (hp : password ≠ "") :
    (cmp password u.password = true →
      login users username password cmp =
        LoginOutcome.ok
          { id := u.id, username := u.username, email := u.email }
          { id := u.id, username := u.username, email := u.email }) ∧
    (cmp password u.password = false →
      login users username password cmp =
        LoginOutcome.badRequest "Invalid password") := by
  have hcond : ¬ (username = "" ∨ password = "") := by
    rintro (h | h)
    · exact hu h
    · exact hp h
  unfold login
  rw [if_neg hcond, hfind]
  constructor <;> intro hcmp <;> simp [hcmp]

def wUsers : List User :=
  [{ id := 7, username := "alice", email := "alice@example.com"
     password := "hash(pw)" }]

/-- Models `bcrypt.compareSync` for the fixture hash format. -/
def wCmp : String → String → Bool :=
  fun plain hash => hash == "hash(" ++ plain ++ ")"

theorem login_embeds_stored_claims_witness :
    wUsers.find? (fun v => v.username = "alice") =
      some { id := 7, username := "alice", email := "alice@example.com"
             password := "hash(pw)" } ∧
    login wUsers "alice" "pw" wCmp =
      LoginOutcome.ok
        { id := 7, username := "alice", email := "alice@example.com" }
        { id := 7, username := "alice", email := "alice@example.com" } ∧
    login wUsers "alice" "wrong" wCmp =
      LoginOutcome.badRequest "Invalid password" :=
  ⟨by decide,
   (login_embeds_stored_claims wUsers
      { id := 7, username := "alice", email := "alice@example.com"
        password := "hash(pw)" }
      "alice" "pw" wCmp (by decide) (by decide) (by decide)).1 (by decide),
   (login_embeds_stored_claims wUsers
      { id := 7, username := "alice", email := "alice@example.com"
        password := "hash(pw)" }
      "alice" "wrong" wCmp (by decide) (by decide) (by decide)).2 (by decide)⟩
